import Mathlib

/-!
Shallow embedding of the Customer CRUD logic of this repository
(src/2-python/day3/examples/ex03.py, with the variants ex04.py,
myworkspace/ex05.py and examples/ex02.py where a claim refers to them).

The database is SQLite via SQLAlchemy: table `customers` with columns
id (integer primary key), name (non-null), email (unique, non-null),
phone (unique, non-null), city (nullable).  We model the table as a list
of rows plus the next auto-assigned primary key.  Request payloads are
mappings of the four field names to raw string values; an absent field is
`none`.  (The Python `isinstance(..., str)` branches of the validator can
never fire in this string-valued model and are noted in comments.)
-/

/-- One row of the `customers` table (ex03.py lines 17-36). -/
structure Customer where
  id : Nat
  name : String
  email : String
  phone : String
  city : String
deriving Repr, DecidableEq

/-- The table state: rows in insertion order plus the next primary key
SQLite will auto-assign. -/
structure Store where
  rows : List Customer
  nextId : Nat
deriving Repr, DecidableEq

/-- A request payload: field name to raw string value, absent = `none`
(Python dict from `request.get_json()`). -/
structure CustomerData where
  name : Option String
  email : Option String
  phone : Option String
  city : Option String
deriving Repr, DecidableEq

/-- Store well-formedness: every primary key is below the auto-increment
counter, and ids, emails and phones are pairwise distinct — exactly the
PRIMARY KEY and UNIQUE constraints of the schema. Every store reachable
from the empty one through the operations below satisfies this. -/
def WF (s : Store) : Prop :=
  (∀ c ∈ s.rows, c.id < s.nextId) ∧
    s.rows.Pairwise (fun a b => a.id ≠ b.id ∧ a.email ≠ b.email ∧ a.phone ≠ b.phone)

instance (s : Store) : Decidable (WF s) := by
  unfold WF; infer_instance

/-- `validate_customer_data` (ex03.py lines 49-68).  Python truthiness:
`not data.get(f)` holds iff the field is absent or the empty string, which
in this string-valued model is `(o.getD "").isEmpty`.  The
`isinstance(..., str)` half of each condition cannot fire here, nor can
the city branch (it only rejects a present non-None non-string city). -/
def validate_customer_data (data : CustomerData) (update : Bool) : List String :=
  (if (!update || data.name.isSome) && (data.name.getD "").isEmpty then
    ["Name is required and must be a string"] else []) ++
  (if (!update || data.email.isSome) && (data.email.getD "").isEmpty then
    ["Email is required and must be a string"] else []) ++
  (if (!update || data.phone.isSome) && (data.phone.getD "").isEmpty then
    ["Phone is required and must be a string"] else [])

/-- Which UNIQUE constraint an INSERT/UPDATE violates.  SQLite raises
`IntegrityError` with a message naming the failed constraint; the
handlers classify it by substring match on `customers.email` /
`customers.phone`. -/
inductive InsertError where
  | dupEmail
  | dupPhone
deriving Repr, DecidableEq

/-- One INSERT followed by COMMIT: fails if another row already holds the
email or the phone (email checked first, matching the handlers' `if`
order), otherwise appends the row under the next auto-assigned id. -/
def insertRow (s : Store) (name email phone city : String) :
    Except InsertError (Customer × Store) :=
  if s.rows.any (fun c => c.email == email) then .error .dupEmail
  else if s.rows.any (fun c => c.phone == phone) then .error .dupPhone
  else
    let c : Customer := ⟨s.nextId, name, email, phone, city⟩
    .ok (c, ⟨s.rows ++ [c], s.nextId + 1⟩)

/-- Outcome of `create_customer` (ex03.py), tagged with its HTTP status. -/
inductive CreateResult where
  | badRequest (errors : List String)   -- 400, validation failed
  | conflict (msg : String)             -- 409, IntegrityError
  | created (c : Customer)              -- 201
deriving Repr, DecidableEq

def CreateResult.status : CreateResult → Nat
  | .badRequest _ => 400
  | .conflict _ => 409
  | .created _ => 201

/-- `create_customer` (ex03.py lines 130-190): validate, then insert with
`city = data.get('city', '')`; on `IntegrityError` roll back (store
unchanged) and answer 409 with the message picked by substring match. -/
def create_customer (s : Store) (data : CustomerData) : CreateResult × Store :=
  let errors := validate_customer_data data false
  if errors.isEmpty then
    match insertRow s (data.name.getD "") (data.email.getD "")
        (data.phone.getD "") (data.city.getD "") with
    | .error .dupEmail => (.conflict "Email address already exists", s)
    | .error .dupPhone => (.conflict "Phone number already exists", s)
    | .ok (c, s') => (.created c, s')
  else (.badRequest errors, s)

/-- Outcome of `get_customer` (ex03.py lines 105-128). -/
inductive GetResult where
  | notFound (msg : String)   -- 404
  | found (c : Customer)      -- 200
deriving Repr, DecidableEq

/-- `get_customer`: `filter_by(id=customer_id).first()`. -/
def get_customer (s : Store) (cid : Nat) : GetResult :=
  match s.rows.find? (fun c => c.id == cid) with
  | none => .notFound ("Customer with ID " ++ toString cid ++ " not found")
  | some c => .found c

/-- The record after the `if field in data: customer.field = ...` block of
`update_customer` (ex03.py lines 220-227): each supplied field overwrites,
each absent field keeps its value. -/
def applyUpdate (c : Customer) (data : CustomerData) : Customer :=
  { c with
    name := data.name.getD c.name
    email := data.email.getD c.email
    phone := data.phone.getD c.phone
    city := data.city.getD c.city }

/-- Outcome of `update_customer` (ex03.py lines 192-261). -/
inductive UpdateResult where
  | badRequest (errors : List String)   -- 400
  | notFound (msg : String)             -- 404
  | conflict (msg : String)             -- 409, IntegrityError on commit
  | updated (c : Customer)              -- 200
deriving Repr, DecidableEq

def UpdateResult.status : UpdateResult → Nat
  | .badRequest _ => 400
  | .notFound _ => 404
  | .conflict _ => 409
  | .updated _ => 200

/-- `update_customer`: validate with `update=True`, look the row up by id,
apply the supplied fields, COMMIT.  SQLAlchemy only writes columns whose
value actually changed, so the UNIQUE constraint fires exactly when a
changed email/phone equals that of some other row; then the session is
rolled back (store unchanged) and the message classified as in create. -/
def update_customer (s : Store) (cid : Nat) (data : CustomerData) :
    UpdateResult × Store :=
  let errors := validate_customer_data data true
  if errors.isEmpty then
    match s.rows.find? (fun c => c.id == cid) with
    | none =>
      (.notFound ("Customer with ID " ++ toString cid ++ " not found"), s)
    | some c =>
      let c' := applyUpdate c data
      if c'.email != c.email
          && s.rows.any (fun o => o.id != cid && o.email == c'.email) then
        (.conflict "Email address already exists", s)
      else if c'.phone != c.phone
          && s.rows.any (fun o => o.id != cid && o.phone == c'.phone) then
        (.conflict "Phone number already exists", s)
      else
        (.updated c',
          ⟨s.rows.map (fun o => if o.id == cid then c' else o), s.nextId⟩)
  else (.badRequest errors, s)

/-- Outcome of `delete_customer` (ex03.py lines 263-290).  On success the
handler answers `jsonify({...}), 200` — an HTTP 200 with a body, not 204. -/
inductive DeleteResult where
  | notFound (msg : String)   -- 404
  | deleted (msg : String)    -- 200 in ex03.py
deriving Repr, DecidableEq

def DeleteResult.status : DeleteResult → Nat
  | .notFound _ => 404
  | .deleted _ => 200

/-- `delete_customer` (ex03.py): look up by id; absent id answers 404 and
leaves the store alone; otherwise DELETE WHERE id = cid, COMMIT, 200. -/
def delete_customer (s : Store) (cid : Nat) : DeleteResult × Store :=
  match s.rows.find? (fun c => c.id == cid) with
  | none =>
    (.notFound ("Customer with ID " ++ toString cid ++ " not found"), s)
  | some _ =>
    (.deleted ("Customer " ++ toString cid ++ " deleted successfully"),
      ⟨s.rows.filter (fun c => c.id != cid), s.nextId⟩)

/-- Outcome of `CustomerItem.delete` (ex04.py lines 245-263), which
returns `'', 204` on success. -/
inductive DeleteResult4 where
  | notFound (msg : String)   -- 404 via api.abort
  | noContent                 -- 204, empty body
deriving Repr, DecidableEq

def DeleteResult4.status : DeleteResult4 → Nat
  | .notFound _ => 404
  | .noContent => 204

/-- `CustomerItem.delete` (ex04.py): same store effect as ex03's delete,
but the success response is status 204 with no content. -/
def CustomerItem_delete (s : Store) (cid : Nat) : DeleteResult4 × Store :=
  match s.rows.find? (fun c => c.id == cid) with
  | none =>
    (.notFound ("Customer with ID " ++ toString cid ++ " not found"), s)
  | some _ =>
    (.noContent, ⟨s.rows.filter (fun c => c.id != cid), s.nextId⟩)

/-- Outcome of `handle_create_customer` (myworkspace/ex05.py lines 24-42).
That handler checks only that `name`, `email`, `phone` are present keys
(an empty string passes), and catches every commit exception — including
the uniqueness `IntegrityError` — as HTTP 500. -/
inductive Create5Result where
  | badRequest (msg : String)    -- 400, missing keys
  | created (c : Customer)       -- 201
  | serverError (msg : String)   -- 500, any commit exception
deriving Repr, DecidableEq

def Create5Result.status : Create5Result → Nat
  | .badRequest _ => 400
  | .created _ => 201
  | .serverError _ => 500

/-- `handle_create_customer` (ex05.py).  `Customer(**req_body)` stores an
absent city as NULL; no claim observes that value, so it is rendered as
`""` here to share the row type.  The 500 message carries the raw driver
error (`str(e.orig)`), whose SQLite text names the failed constraint. -/
def handle_create_customer (s : Store) (data : CustomerData) :
    Create5Result × Store :=
  if data.name.isNone || data.email.isNone || data.phone.isNone then
    (.badRequest "Missing fields", s)
  else
    match insertRow s (data.name.getD "") (data.email.getD "")
        (data.phone.getD "") (data.city.getD "") with
    | .error .dupEmail =>
      (.serverError "UNIQUE constraint failed: customers.email", s)
    | .error .dupPhone =>
      (.serverError "UNIQUE constraint failed: customers.phone", s)
    | .ok (c, s') => (.created c, s')

/-- Lowercasing a string character by character (`Char.toLower` folds
exactly the ASCII range, as SQLite and `str.lower` do on these inputs). -/
def lowerString (s : String) : String := ⟨s.data.map Char.toLower⟩

/-- SQL `LIKE '%pat%'`: SQLite's LIKE is case-insensitive over ASCII, so
this is containment after ASCII lowercasing. -/
def likeMatch (pat s : String) : Bool :=
  decide ((lowerString pat).data <:+: (lowerString s).data)

/-- `get_customers` (ex03.py lines 72-96): each query parameter that is
present and non-empty (`request.args.get(f)` is truthy) adds a
`LIKE '%value%'` filter; the filters conjoin. -/
def filtersMatch (q : CustomerData) (c : Customer) : Bool :=
  ((q.name.getD "").isEmpty || likeMatch (q.name.getD "") c.name) &&
  ((q.email.getD "").isEmpty || likeMatch (q.email.getD "") c.email) &&
  ((q.phone.getD "").isEmpty || likeMatch (q.phone.getD "") c.phone) &&
  ((q.city.getD "").isEmpty || likeMatch (q.city.getD "") c.city)

def get_customers (s : Store) (q : CustomerData) : List Customer :=
  s.rows.filter (filtersMatch q)

/-- `row_data` of `bulk_import` (ex03.py lines 399-403): the dict built
from `header[i].lower() -> row[i]` for each index covered by both lists;
`zip` truncates to the shorter exactly as the `i < len(header)` guard. -/
def row_data (header row : List String) : List (String × String) :=
  (header.zip row).map (fun p => (lowerString p.1, p.2))

/-- Python dict lookup over the association list: later bindings win. -/
def dictGet (m : List (String × String)) (k : String) : Option String :=
  (m.reverse.find? (fun p => p.1 == k)).map (·.2)

/-- One iteration of the `for row in data_rows` loop of `bulk_import`
(ex03.py lines 391-436): short rows and rows missing a required field are
recorded as failures; otherwise the row is inserted and committed on its
own, a duplicate rolls back only that row, and the loop continues either
way.  The accumulator is (store, success_count, failed_rows). -/
def bulkStep (header : List String)
    (acc : Store × Nat × List (List String × String)) (row : List String) :
    Store × Nat × List (List String × String) :=
  let s := acc.1
  let succ := acc.2.1
  let failed := acc.2.2
  if row.length < 3 then
    (s, succ, failed ++ [(row, "Row must have at least name, email, and phone")])
  else
    let m := row_data header row
    match dictGet m "name", dictGet m "email", dictGet m "phone" with
    | some n, some e, some p =>
      match insertRow s n e p ((dictGet m "city").getD "") with
      | .ok (_, s') => (s', succ + 1, failed)
      | .error .dupEmail =>
        (s, succ, failed ++ [(row, "UNIQUE constraint failed: customers.email")])
      | .error .dupPhone =>
        (s, succ, failed ++ [(row, "UNIQUE constraint failed: customers.phone")])
    | _, _, _ => (s, succ, failed ++ [(row, "Missing required fields")])

/-- The row loop of `bulk_import`, after the handler has split off the
header (or substituted `['name','email','phone','city']` when
`has_header` is false). -/
def bulk_import (s : Store) (header : List String)
    (data_rows : List (List String)) :
    Store × Nat × List (List String × String) :=
  data_rows.foldl (bulkStep header) (s, 0, [])

/-- The final status of the bulk handler (ex03.py line 444, ex04.py line
392): `200 if success_count > 0 else 400`. -/
def bulk_response_status (success_count : Nat) : Nat :=
  if success_count > 0 then 200 else 400

/-- One `writer.writerow` line of the export (ex03.py lines 473-483),
kept as its list of cells to stay independent of CSV quoting. -/
def renderRow (c : Customer) : List String :=
  [toString c.id, c.name, c.email, c.phone, c.city]

/-- `export_customers` (ex03.py lines 454-498) as the sequence of rows it
writes: the handler returns early with `csv_data = ""` when the table is
empty, and otherwise writes the header row then one row per customer. -/
def export_customers (s : Store) : List (List String) :=
  if s.rows.isEmpty then []
  else ["id", "name", "email", "phone", "city"] :: s.rows.map renderRow

/-- A request field that is present and non-empty (the payload carries a
usable value; Python: `data.get(f)` is truthy). -/
def filled (o : Option String) : Prop := o.getD "" ≠ ""

instance (o : Option String) : Decidable (filled o) := by
  unfold filled; infer_instance

/-- Sample data for the concrete witnesses below. -/
def rowA : Customer := ⟨1, "A", "a@x.com", "1", "X"⟩

def storeA : Store := ⟨[rowA], 2⟩

def payloadB : CustomerData := ⟨some "B", some "b@x.com", some "2", some "Y"⟩

def payloadDupB : CustomerData := ⟨some "B", some "a@x.com", some "2", some "Y"⟩

/-! ### Helper lemmas -/

@[simp] lemma isEmpty_empty_string : "".isEmpty = true := rfl

lemma validate_create_eq_nil_iff (data : CustomerData) :
    validate_customer_data data false = [] ↔
      filled data.name ∧ filled data.email ∧ filled data.phone := by
  rcases data with ⟨n, e, p, c⟩
  rcases n with _ | n <;> rcases e with _ | e <;> rcases p with _ | p <;>
    simp [validate_customer_data, filled, String.isEmpty_iff]

lemma validate_update_eq_nil_iff (data : CustomerData) :
    validate_customer_data data true = [] ↔
      (data.name.isSome → filled data.name) ∧
      (data.email.isSome → filled data.email) ∧
      (data.phone.isSome → filled data.phone) := by
  rcases data with ⟨n, e, p, c⟩
  rcases n with _ | n <;> rcases e with _ | e <;> rcases p with _ | p <;>
    simp [validate_customer_data, filled, String.isEmpty_iff]

/-- Two rows of a well-formed table sharing a primary key are the same row. -/
lemma mem_id_unique {rows : List Customer}
    (hpw : rows.Pairwise (fun a b => a.id ≠ b.id)) {a b : Customer}
    (ha : a ∈ rows) (hb : b ∈ rows) (hid : a.id = b.id) : a = b := by
  induction rows with
  | nil => cases ha
  | cons h t ih =>
    rcases List.pairwise_cons.mp hpw with ⟨hh, ht⟩
    rcases List.mem_cons.mp ha with rfl | ha' <;>
      rcases List.mem_cons.mp hb with rfl | hb'
    · rfl
    · exact absurd hid (hh _ hb')
    · exact absurd hid.symm (hh _ ha')
    · exact ih ht ha' hb'

/-- In a table with pairwise-distinct ids, looking a member row up by its
own id finds exactly that row. -/
lemma find_by_id_of_mem {rows : List Customer}
    (hpw : rows.Pairwise (fun a b => a.id ≠ b.id)) {c : Customer}
    (hc : c ∈ rows) : rows.find? (fun o => o.id == c.id) = some c := by
  induction rows with
  | nil => cases hc
  | cons h t ih =>
    rcases List.pairwise_cons.mp hpw with ⟨hh, ht⟩
    rcases List.mem_cons.mp hc with rfl | hc'
    · exact List.find?_cons_of_pos _ (by simp)
    · rw [List.find?_cons_of_neg _ (by simpa using hh _ hc')]
      exact ih ht hc'

/-- The id-distinctness part of well-formedness. -/
lemma WF.ids_pairwise {s : Store} (h : WF s) :
    s.rows.Pairwise (fun a b => a.id ≠ b.id) :=
  h.2.imp (fun hab => hab.1)

/-- A successful insert appends the fresh row. -/
lemma insertRow_ok (s : Store) (n e p ci : String)
    (he : ∀ c ∈ s.rows, c.email ≠ e) (hp : ∀ c ∈ s.rows, c.phone ≠ p) :
    insertRow s n e p ci =
      .ok (⟨s.nextId, n, e, p, ci⟩,
        ⟨s.rows ++ [⟨s.nextId, n, e, p, ci⟩], s.nextId + 1⟩) := by
  rw [insertRow, if_neg, if_neg] <;>
    simp only [List.any_eq_true, not_exists, not_and, Bool.not_eq_true,
      beq_eq_false_iff_ne, ne_eq] <;> intro c hc
  · exact hp c hc
  · exact he c hc

/-- An insert whose email is already taken fails on the email constraint. -/
lemma insertRow_dupEmail (s : Store) (n e p ci : String)
    (hdup : ∃ c ∈ s.rows, c.email = e) :
    insertRow s n e p ci = .error .dupEmail := by
  rcases hdup with ⟨c, hc, hce⟩
  rw [insertRow, if_pos]
  exact List.any_eq_true.mpr ⟨c, hc, by simp [hce]⟩

/-- A validated create against fresh email/phone: the exact result row,
the exact result store, and the read-back of the new row by its id. -/
lemma create_success (s : Store) (data : CustomerData)
    (hid : ∀ c ∈ s.rows, c.id < s.nextId)
    (hval : validate_customer_data data false = [])
    (he : ∀ c ∈ s.rows, c.email ≠ data.email.getD "")
    (hp : ∀ c ∈ s.rows, c.phone ≠ data.phone.getD "") :
    create_customer s data =
      (.created ⟨s.nextId, data.name.getD "", data.email.getD "",
          data.phone.getD "", data.city.getD ""⟩,
        ⟨s.rows ++ [⟨s.nextId, data.name.getD "", data.email.getD "",
          data.phone.getD "", data.city.getD ""⟩], s.nextId + 1⟩) ∧
    get_customer (create_customer s data).2 s.nextId =
      .found ⟨s.nextId, data.name.getD "", data.email.getD "",
        data.phone.getD "", data.city.getD ""⟩ := by
  have h1 : create_customer s data =
      (.created ⟨s.nextId, data.name.getD "", data.email.getD "",
          data.phone.getD "", data.city.getD ""⟩,
        ⟨s.rows ++ [⟨s.nextId, data.name.getD "", data.email.getD "",
          data.phone.getD "", data.city.getD ""⟩], s.nextId + 1⟩) := by
    unfold create_customer
    rw [hval, insertRow_ok _ _ _ _ _ he hp]
    rfl
  refine ⟨h1, ?_⟩
  rw [h1]
  unfold get_customer
  rw [List.find?_append, List.find?_eq_none.mpr
    (fun c hc => by simp [Nat.ne_of_lt (hid c hc)])]
  simp [List.find?_cons]

/-- A payload passing creation validation has all three required fields
present (needed for the ex05 presence-only check). -/
lemma validated_fields_present {data : CustomerData}
    (hval : validate_customer_data data false = []) :
    data.name.isNone = false ∧ data.email.isNone = false ∧
      data.phone.isNone = false := by
  rcases (validate_create_eq_nil_iff data).mp hval with ⟨fn, fe, fp⟩
  refine ⟨?_, ?_, ?_⟩
  · cases h : data.name <;> simp [filled, h] at fn ⊢
  · cases h : data.email <;> simp [filled, h] at fe ⊢
  · cases h : data.phone <;> simp [filled, h] at fp ⊢

/-! ### Claims -/

/-- C3: creation validation rejects exactly when name, email or phone is
missing or empty (`o.getD "" = ""` says precisely absent-or-empty in the
string-valued payload model); partial-update validation checks only the
fields present in the payload; the city field never contributes an error;
and a rejected create returns the human-readable error list leaving the
store untouched. -/
theorem C3_validation_contract (data : CustomerData) (s : Store) :
    (validate_customer_data data false ≠ [] ↔
      data.name.getD "" = "" ∨ data.email.getD "" = "" ∨
        data.phone.getD "" = "") ∧
    (validate_customer_data data true ≠ [] ↔
      (data.name.isSome ∧ data.name.getD "" = "") ∨
      (data.email.isSome ∧ data.email.getD "" = "") ∨
      (data.phone.isSome ∧ data.phone.getD "" = "")) ∧
    (∀ u city',
      validate_customer_data ⟨data.name, data.email, data.phone, city'⟩ u =
        validate_customer_data data u) ∧
    (validate_customer_data data false ≠ [] →
      create_customer s data =
        (.badRequest (validate_customer_data data false), s)) := by
  refine ⟨?_, ?_, ?_, ?_⟩
  · rw [Ne, validate_create_eq_nil_iff]
    simp [filled]
    tauto
  · rw [Ne, validate_update_eq_nil_iff]
    simp [filled]
    tauto
  · intro u city'
    rcases data with ⟨n, e, p, c⟩
    simp [validate_customer_data]
  · intro h
    have hne : (validate_customer_data data false).isEmpty = false := by
      simpa [List.isEmpty_iff] using h
    simp [create_customer, hne]

/-- Witness for C3 at the concrete payload missing its email. -/
theorem C3_validation_contract_witness :
    validate_customer_data ⟨some "A", none, some "1", none⟩ false ≠ [] ∧
    create_customer storeA ⟨some "A", none, some "1", none⟩ =
      (.badRequest
        (validate_customer_data ⟨some "A", none, some "1", none⟩ false),
        storeA) :=
  ⟨by decide,
    (C3_validation_contract ⟨some "A", none, some "1", none⟩ storeA).2.2.2
      (by decide)⟩

/-- C2: a create whose payload passes creation validation and whose email
and phone occur in no existing row succeeds (201), and reading the new id
back returns a row agreeing with the payload on name, email, phone and
city (city being the supplied value, `""` when absent). -/
theorem C2_create_roundtrip (s : Store) (data : CustomerData)
    (hwf : WF s)
    (hval : validate_customer_data data false = [])
    (he : ∀ c ∈ s.rows, c.email ≠ data.email.getD "")
    (hp : ∀ c ∈ s.rows, c.phone ≠ data.phone.getD "") :
    ∃ c, create_customer s data =
        (.created c, ⟨s.rows ++ [c], s.nextId + 1⟩) ∧
      get_customer (create_customer s data).2 c.id = .found c ∧
      c.name = data.name.getD "" ∧ c.email = data.email.getD "" ∧
      c.phone = data.phone.getD "" ∧ c.city = data.city.getD "" := by
  obtain ⟨h1, h2⟩ := create_success s data hwf.1 hval he hp
  exact ⟨_, h1, h2, rfl, rfl, rfl, rfl⟩

/-- Witness for C2: a fresh payload against the one-row store. -/
theorem C2_create_roundtrip_witness :
    WF storeA ∧ validate_customer_data payloadB false = [] ∧
    (∃ c, create_customer storeA payloadB =
        (.created c, ⟨storeA.rows ++ [c], storeA.nextId + 1⟩) ∧
      get_customer (create_customer storeA payloadB).2 c.id = .found c ∧
      c.name = payloadB.name.getD "" ∧ c.email = payloadB.email.getD "" ∧
      c.phone = payloadB.phone.getD "" ∧ c.city = payloadB.city.getD "") :=
  ⟨by decide, by decide,
    C2_create_roundtrip storeA payloadB (by decide) (by decide)
      (by decide) (by decide)⟩

/-- C1 as stated is false at a concrete input: the ex05 API variant
(`handle_create_customer`) answers a duplicate-email create with HTTP 500
(its handler catches the IntegrityError as a generic exception), not 409;
and in ex03 a duplicate-email payload that also fails validation answers
400, not 409.  The store is unchanged in both cases, as the claim says. -/
theorem C1_counterexample :
    (handle_create_customer storeA payloadDupB).1.status = 500 ∧
    (create_customer storeA ⟨none, some "a@x.com", some "2", none⟩).1.status
      = 400 := by decide

/-- C1 amended: for every create payload that passes creation validation
and whose email equals an existing row's email, ex03's create answers 409
citing the email field while ex05's answers 500 carrying the driver's
email-constraint message, and in both variants the store is returned
unchanged. -/
theorem C1_duplicate_email_conflict (s : Store) (data : CustomerData)
    (hval : validate_customer_data data false = [])
    (hdup : ∃ c ∈ s.rows, c.email = data.email.getD "") :
    create_customer s data = (.conflict "Email address already exists", s) ∧
    (create_customer s data).1.status = 409 ∧
    handle_create_customer s data =
      (.serverError "UNIQUE constraint failed: customers.email", s) ∧
    (handle_create_customer s data).1.status = 500 := by
  have hins := insertRow_dupEmail s (data.name.getD "") (data.email.getD "")
    (data.phone.getD "") (data.city.getD "") hdup
  obtain ⟨hn, he, hp⟩ := validated_fields_present hval
  have h1 : create_customer s data =
      (.conflict "Email address already exists", s) := by
    simp [create_customer, hval, hins]
  have h2 : handle_create_customer s data =
      (.serverError "UNIQUE constraint failed: customers.email", s) := by
    simp [handle_create_customer, hn, he, hp, hins]
  exact ⟨h1, by rw [h1]; rfl, h2, by rw [h2]; rfl⟩

/-- Witness for the amended C1 at the spec's own example payloads. -/
theorem C1_duplicate_email_conflict_witness :
    validate_customer_data payloadDupB false = [] ∧
    (∃ c ∈ storeA.rows, c.email = payloadDupB.email.getD "") ∧
    create_customer storeA payloadDupB =
      (.conflict "Email address already exists", storeA) ∧
    handle_create_customer storeA payloadDupB =
      (.serverError "UNIQUE constraint failed: customers.email", storeA) :=
  ⟨by decide, by decide,
    (C1_duplicate_email_conflict storeA payloadDupB (by decide)
      (by decide)).1,
    (C1_duplicate_email_conflict storeA payloadDupB (by decide)
      (by decide)).2.2.1⟩

/-- C4: on a well-formed store, updating an existing row with a
city-only payload rewrites just that row's city; and in general any
update that succeeds (status 200) produced exactly the row whose
supplied fields come from the payload and whose other fields are the old
ones, replacing only that row in the table. -/
theorem C4_update_frame (s : Store) (c : Customer) (cid : Nat)
    (hwf : WF s) (hc : c ∈ s.rows) (hcid : c.id = cid) :
    (∀ x, update_customer s cid ⟨none, none, none, some x⟩ =
      (.updated { c with city := x },
        ⟨s.rows.map (fun o => if o.id == cid then { c with city := x } else o),
          s.nextId⟩)) ∧
    (∀ d r s', update_customer s cid d = (.updated r, s') →
      r.name = d.name.getD c.name ∧ r.email = d.email.getD c.email ∧
      r.phone = d.phone.getD c.phone ∧ r.city = d.city.getD c.city ∧
      s' = ⟨s.rows.map (fun o => if o.id == cid then r else o), s.nextId⟩) := by
  subst hcid
  have hfind : s.rows.find? (fun o => o.id == c.id) = some c :=
    find_by_id_of_mem hwf.ids_pairwise hc
  constructor
  · intro x
    simp [update_customer, validate_customer_data, hfind, applyUpdate]
  · intro d r s' h
    by_cases hv : (validate_customer_data d true).isEmpty
    · simp only [update_customer, hv, if_true, hfind] at h
      split at h
      · simp at h
      · split at h
        · simp at h
        · rw [Prod.mk.injEq, UpdateResult.updated.injEq] at h
          obtain ⟨hr, hs⟩ := h
          subst hr
          refine ⟨rfl, rfl, rfl, rfl, ?_⟩
          rw [← hs]
    · simp [update_customer, hv] at h

/-- Witness for C4: a city-only update of the sample row. -/
theorem C4_update_frame_witness :
    update_customer storeA 1 ⟨none, none, none, some "Chennai"⟩ =
      (.updated ⟨1, "A", "a@x.com", "1", "Chennai"⟩,
        ⟨storeA.rows.map (fun o =>
          if o.id == 1 then ⟨1, "A", "a@x.com", "1", "Chennai"⟩ else o),
          storeA.nextId⟩) :=
  (C4_update_frame storeA rowA 1 (by decide) (by decide) (by decide)).1
    "Chennai"

/-- C5 as stated is false at a concrete input: ex03's `delete_customer`
answers a successful delete with HTTP 200 (a JSON body), not the 204 the
claim asserts for the API variants (only ex04 responds 204). -/
theorem C5_counterexample :
    (delete_customer storeA 1).1.status = 200 ∧ (200 : Nat) ≠ 204 := by
  decide

/-- C5 amended: deleting an id held by no row answers 404 in both API
variants and leaves the store unchanged; deleting an existing row removes
exactly that row (both variants computing the same new store), with ex04
answering 204 (no content) but ex03 answering 200. -/
theorem C5_delete (s : Store) (cid : Nat) (hwf : WF s) :
    ((∀ c ∈ s.rows, c.id ≠ cid) →
      delete_customer s cid =
        (.notFound ("Customer with ID " ++ toString cid ++ " not found"),
          s) ∧
      CustomerItem_delete s cid =
        (.notFound ("Customer with ID " ++ toString cid ++ " not found"),
          s) ∧
      (delete_customer s cid).1.status = 404 ∧
      (CustomerItem_delete s cid).1.status = 404) ∧
    (∀ c ∈ s.rows, c.id = cid →
      (delete_customer s cid).1.status = 200 ∧
      (CustomerItem_delete s cid).1.status = 204 ∧
      (CustomerItem_delete s cid).2 = (delete_customer s cid).2 ∧
      (∀ o, o ∈ (delete_customer s cid).2.rows ↔ o ∈ s.rows ∧ o ≠ c)) := by
  constructor
  · intro habs
    have hfind : s.rows.find? (fun o => o.id == cid) = none :=
      List.find?_eq_none.mpr (fun o ho => by simp [habs o ho])
    refine ⟨?_, ?_, ?_, ?_⟩ <;>
      simp [delete_customer, CustomerItem_delete, hfind, DeleteResult.status,
        DeleteResult4.status]
  · intro c hc hcid
    subst hcid
    have hfind : s.rows.find? (fun o => o.id == c.id) = some c :=
      find_by_id_of_mem hwf.ids_pairwise hc
    refine ⟨?_, ?_, ?_, ?_⟩
    · simp [delete_customer, hfind, DeleteResult.status]
    · simp [CustomerItem_delete, hfind, DeleteResult4.status]
    · simp [delete_customer, CustomerItem_delete, hfind]
    · intro o
      simp only [delete_customer, hfind, List.mem_filter, bne_iff_ne, ne_eq]
      constructor
      · rintro ⟨ho, hne⟩
        exact ⟨ho, fun hoc => hne (by rw [hoc])⟩
      · rintro ⟨ho, hne⟩
        refine ⟨ho, fun hid => hne ?_⟩
        exact mem_id_unique hwf.ids_pairwise ho hc hid

/-- Witness for the amended C5: deleting the sample row and a missing id. -/
theorem C5_delete_witness :
    (delete_customer storeA 1).1.status = 200 ∧
    (CustomerItem_delete storeA 1).1.status = 204 ∧
    (∀ o, o ∈ (delete_customer storeA 1).2.rows ↔ o ∈ storeA.rows ∧ o ≠ rowA) ∧
    delete_customer storeA 7 =
      (.notFound ("Customer with ID " ++ toString 7 ++ " not found"),
        storeA) :=
  ⟨((C5_delete storeA 1 (by decide)).2 rowA (by decide) (by decide)).1,
    ((C5_delete storeA 1 (by decide)).2 rowA (by decide) (by decide)).2.1,
    ((C5_delete storeA 1 (by decide)).2 rowA (by decide) (by decide)).2.2.2,
    ((C5_delete storeA 7 (by decide)).1 (by decide)).1⟩

/-- Inverting a successful insert: the new row and the one-longer table. -/
lemma insertRow_ok_inv {s : Store} {n e p ci : String} {c : Customer}
    {s' : Store} (h : insertRow s n e p ci = .ok (c, s')) :
    c = ⟨s.nextId, n, e, p, ci⟩ ∧ s' = ⟨s.rows ++ [c], s.nextId + 1⟩ := by
  unfold insertRow at h
  split at h
  · cases h
  · split at h
    · cases h
    · simp only [Except.ok.injEq, Prod.mk.injEq] at h
      obtain ⟨hc, hs⟩ := h
      subst hc
      exact ⟨rfl, hs.symm⟩

/-- Each loop iteration of the bulk import either commits its row (one
more success, one more stored row, same failure list) or records exactly
one failure (store and successes untouched) — rows are independent. -/
lemma bulkStep_cases (header : List String) (s : Store) (succ : Nat)
    (failed : List (List String × String)) (row : List String) :
    (∃ s', bulkStep header (s, succ, failed) row = (s', succ + 1, failed) ∧
      s'.rows.length = s.rows.length + 1) ∨
    (∃ f, bulkStep header (s, succ, failed) row = (s, succ, failed ++ [f])) := by
  simp only [bulkStep]
  split
  · exact .inr ⟨_, rfl⟩
  · rcases hn : dictGet (row_data header row) "name" with _ | n <;>
      rcases he : dictGet (row_data header row) "email" with _ | e <;>
      rcases hp : dictGet (row_data header row) "phone" with _ | p <;>
        simp only [hn, he, hp]
    all_goals try exact .inr ⟨_, rfl⟩
    rcases hins : insertRow s n e p
        ((dictGet (row_data header row) "city").getD "") with (_ | _) | ⟨c, s'⟩ <;>
      simp only [hins]
    · exact .inr ⟨_, rfl⟩
    · exact .inr ⟨_, rfl⟩
    · refine .inl ⟨s', rfl, ?_⟩
      obtain ⟨-, hs⟩ := insertRow_ok_inv hins
      rw [hs]
      simp

/-- Loop invariant of the bulk import: every row ends up counted exactly
once (as a success or as one failure entry), and the table grows by
exactly the number of successes. -/
lemma bulk_loop_counts (header : List String) (rows : List (List String)) :
    ∀ (s : Store) (succ : Nat) (failed : List (List String × String)),
      ((rows.foldl (bulkStep header) (s, succ, failed)).2.1 +
        (rows.foldl (bulkStep header) (s, succ, failed)).2.2.length =
        succ + failed.length + rows.length) ∧
      ((rows.foldl (bulkStep header) (s, succ, failed)).1.rows.length + succ =
        s.rows.length + (rows.foldl (bulkStep header) (s, succ, failed)).2.1) := by
  induction rows with
  | nil => intro s succ failed; simp
  | cons row rows ih =>
    intro s succ failed
    rw [List.foldl_cons]
    rcases bulkStep_cases header s succ failed row with
      ⟨s', hstep, hlen⟩ | ⟨f, hstep⟩
    · rw [hstep]
      obtain ⟨ih1, ih2⟩ := ih s' (succ + 1) failed
      refine ⟨?_, ?_⟩
      · simp only [List.length_cons]
        omega
      · omega
    · rw [hstep]
      obtain ⟨ih1, ih2⟩ := ih s succ (failed ++ [f])
      simp only [List.length_append, List.length_cons, List.length_nil] at ih1
      refine ⟨?_, ?_⟩
      · simp only [List.length_cons]
        omega
      · omega

/-- C6: bulk import processes every row independently — each row is
counted exactly once (success or one failure entry), the table grows by
exactly the number of successes, processing a row sequence continues
through failures (the loop is a fold, so later rows run from the state
the earlier rows left), and the spec's 3-row scenario (row 2 duplicating
an existing email) yields 2 successes, reports exactly row 2 as failed,
and grows the table by exactly 2. -/
theorem C6_bulk_row_independence :
    (∀ (s : Store) (header : List String) (rows : List (List String)),
      (bulk_import s header rows).2.1 +
        (bulk_import s header rows).2.2.length = rows.length ∧
      (bulk_import s header rows).1.rows.length =
        s.rows.length + (bulk_import s header rows).2.1) ∧
    (∀ (header : List String)
        (acc : Store × Nat × List (List String × String))
        (l₁ l₂ : List (List String)),
      (l₁ ++ l₂).foldl (bulkStep header) acc =
        l₂.foldl (bulkStep header) (l₁.foldl (bulkStep header) acc)) ∧
    bulk_import storeA ["name", "email", "phone", "city"]
        [["P", "p@x.com", "11", "C1"], ["Q", "a@x.com", "12", "C2"],
          ["R", "r@x.com", "13", "C3"]] =
      (⟨storeA.rows ++ [⟨2, "P", "p@x.com", "11", "C1"⟩,
          ⟨3, "R", "r@x.com", "13", "C3"⟩], 4⟩, 2,
        [(["Q", "a@x.com", "12", "C2"],
          "UNIQUE constraint failed: customers.email")]) := by
  refine ⟨fun s header rows => ?_, fun header acc l₁ l₂ => List.foldl_append .., by decide⟩
  obtain ⟨h1, h2⟩ := bulk_loop_counts header rows s 0 []
  exact ⟨by simpa [bulk_import] using h1, by simpa [bulk_import] using h2⟩

/-- C7: the list/search filter keeps exactly the rows matching every
given criterion (each criterion an SQLite LIKE `%v%`, i.e. ASCII
case-insensitive substring, applied only when the parameter is present
and non-empty, all conjoined), and the result set is insertion-order
independent: permuted tables give permuted (hence equal as sets)
results. -/
theorem C7_search_all_and_only (s t : Store) (q : CustomerData)
    (hperm : s.rows.Perm t.rows) :
    (∀ c, c ∈ get_customers s q ↔ c ∈ s.rows ∧ filtersMatch q c = true) ∧
    (∀ c, filtersMatch q c = true ↔
      (((q.name.getD "").isEmpty = true ∨
          likeMatch (q.name.getD "") c.name = true) ∧
        ((q.email.getD "").isEmpty = true ∨
          likeMatch (q.email.getD "") c.email = true) ∧
        ((q.phone.getD "").isEmpty = true ∨
          likeMatch (q.phone.getD "") c.phone = true) ∧
        ((q.city.getD "").isEmpty = true ∨
          likeMatch (q.city.getD "") c.city = true))) ∧
    (get_customers s q).Perm (get_customers t q) := by
  refine ⟨fun c => ?_, fun c => ?_, hperm.filter _⟩
  · simp [get_customers, List.mem_filter]
  · simp only [filtersMatch, Bool.and_eq_true, Bool.or_eq_true]
    tauto

/-- Witness for C7: the spec's `"ngal"`/`"Bangalore"` partial-city search
over two two-row stores that are permutations of each other. -/
theorem C7_search_all_and_only_witness :
    (∀ c, c ∈ get_customers
        ⟨[⟨1, "A", "a", "1", "Bangalore"⟩, ⟨2, "B", "b", "2", "Delhi"⟩], 3⟩
        ⟨none, none, none, some "ngal"⟩ ↔
      c ∈ [⟨1, "A", "a", "1", "Bangalore"⟩, (⟨2, "B", "b", "2", "Delhi"⟩ : Customer)] ∧
        filtersMatch ⟨none, none, none, some "ngal"⟩ c = true) ∧
    (get_customers
        ⟨[⟨1, "A", "a", "1", "Bangalore"⟩, ⟨2, "B", "b", "2", "Delhi"⟩], 3⟩
        ⟨none, none, none, some "ngal"⟩).Perm
      (get_customers
        ⟨[⟨2, "B", "b", "2", "Delhi"⟩, ⟨1, "A", "a", "1", "Bangalore"⟩], 3⟩
        ⟨none, none, none, some "ngal"⟩) :=
  ⟨(C7_search_all_and_only
      ⟨[⟨1, "A", "a", "1", "Bangalore"⟩, ⟨2, "B", "b", "2", "Delhi"⟩], 3⟩
      ⟨[⟨2, "B", "b", "2", "Delhi"⟩, ⟨1, "A", "a", "1", "Bangalore"⟩], 3⟩
      ⟨none, none, none, some "ngal"⟩ (by decide)).1,
    (C7_search_all_and_only
      ⟨[⟨1, "A", "a", "1", "Bangalore"⟩, ⟨2, "B", "b", "2", "Delhi"⟩], 3⟩
      ⟨[⟨2, "B", "b", "2", "Delhi"⟩, ⟨1, "A", "a", "1", "Bangalore"⟩], 3⟩
      ⟨none, none, none, some "ngal"⟩ (by decide)).2.2⟩

/-- C8 as stated is false at a concrete input: exporting an empty store
in ex03 returns `csv_data = ""` — no lines at all, so no header line. -/
theorem C8_counterexample :
    (export_customers ⟨[], 1⟩).head? ≠
      some ["id", "name", "email", "phone", "city"] := by decide

/-- C8 amended: for every store holding at least one record, the export
is the header line followed by exactly one line per record in table
order (none omitted, none duplicated); the empty store instead yields an
empty sequence in ex03 (and the console variant prints nothing). -/
theorem C8_export_header_then_rows (s : Store) (h : s.rows ≠ []) :
    export_customers s =
      ["id", "name", "email", "phone", "city"] :: s.rows.map renderRow ∧
    (export_customers s).length = s.rows.length + 1 := by
  have hne : s.rows.isEmpty = false := by simpa [List.isEmpty_iff] using h
  refine ⟨?_, ?_⟩ <;> simp [export_customers, hne]

/-- Witness for the amended C8 at the one-row sample store. -/
theorem C8_export_header_then_rows_witness :
    storeA.rows ≠ [] ∧
    export_customers storeA =
      ["id", "name", "email", "phone", "city"] :: storeA.rows.map renderRow :=
  ⟨by decide, (C8_export_header_then_rows storeA (by decide)).1⟩

/-- C9: when the payload has no city — a direct create or a bulk row
under a header without a city column — the stored row's city is the empty
string (`data.get('city', '')`), and reading the record back returns
`city = ""`. -/
theorem C9_absent_city_defaults_empty :
    (∀ (s : Store) (data : CustomerData), WF s → data.city = none →
      validate_customer_data data false = [] →
      (∀ c ∈ s.rows, c.email ≠ data.email.getD "") →
      (∀ c ∈ s.rows, c.phone ≠ data.phone.getD "") →
      ∃ c, create_customer s data =
          (.created c, ⟨s.rows ++ [c], s.nextId + 1⟩) ∧
        c.city = "" ∧
        get_customer (create_customer s data).2 c.id = .found c) ∧
    (∀ (s : Store) (succ : Nat) (failed : List (List String × String))
        (n e p : String),
      (∀ c ∈ s.rows, c.email ≠ e) → (∀ c ∈ s.rows, c.phone ≠ p) →
      bulkStep ["name", "email", "phone"] (s, succ, failed) [n, e, p] =
        (⟨s.rows ++ [⟨s.nextId, n, e, p, ""⟩], s.nextId + 1⟩, succ + 1,
          failed)) := by
  constructor
  · intro s data hwf hcity hval he hp
    obtain ⟨h1, h2⟩ := create_success s data hwf.1 hval he hp
    rw [hcity] at h1 h2
    exact ⟨_, h1, rfl, h2⟩
  · intro s succ failed n e p he hp
    have hname :
        dictGet (row_data ["name", "email", "phone"] [n, e, p]) "name" =
          some n := rfl
    have hemail :
        dictGet (row_data ["name", "email", "phone"] [n, e, p]) "email" =
          some e := rfl
    have hphone :
        dictGet (row_data ["name", "email", "phone"] [n, e, p]) "phone" =
          some p := rfl
    have hcity :
        dictGet (row_data ["name", "email", "phone"] [n, e, p]) "city" =
          none := rfl
    have hins := insertRow_ok s n e p "" he hp
    simp only [bulkStep, hname, hemail, hphone, hcity, Option.getD_none,
      hins]
    rw [if_neg (by simp)]

/-- Witness for C9: a city-less payload against the sample store. -/
theorem C9_absent_city_defaults_empty_witness :
    ∃ c, create_customer storeA ⟨some "B", some "b@x.com", some "2", none⟩ =
        (.created c, ⟨storeA.rows ++ [c], storeA.nextId + 1⟩) ∧
      c.city = "" ∧
      get_customer
        (create_customer storeA ⟨some "B", some "b@x.com", some "2", none⟩).2
        c.id = .found c :=
  C9_absent_city_defaults_empty.1 storeA
    ⟨some "B", some "b@x.com", some "2", none⟩ (by decide) rfl (by decide)
    (by decide) (by decide)

/-- C10: the bulk-import response status is 200 exactly when at least one
row succeeded; with zero successes it is 400 even though every row was
processed and each contributed its own failure entry (the failure list
then has one entry per submitted row). -/
theorem C10_bulk_status_codes (s : Store) (header : List String)
    (rows : List (List String)) :
    (bulk_response_status (bulk_import s header rows).2.1 = 200 ↔
      0 < (bulk_import s header rows).2.1) ∧
    ((bulk_import s header rows).2.1 = 0 →
      bulk_response_status (bulk_import s header rows).2.1 = 400 ∧
      (bulk_import s header rows).2.2.length = rows.length) := by
  constructor
  · unfold bulk_response_status
    split <;> simp_all
  · intro h0
    have h1 := (bulk_loop_counts header rows s 0 []).1
    refine ⟨by simp [bulk_response_status, h0], ?_⟩
    have h2 : (bulk_import s header rows).2.1 +
        (bulk_import s header rows).2.2.length = rows.length := by
      simpa [bulk_import] using h1
    omega

/-- Witness for C10: a single all-failing row (duplicate email) gives
status 400 with one failure entry. -/
theorem C10_bulk_status_codes_witness :
    (bulk_import storeA ["name", "email", "phone", "city"]
      [["Q", "a@x.com", "12", "C2"]]).2.1 = 0 ∧
    bulk_response_status
      (bulk_import storeA ["name", "email", "phone", "city"]
        [["Q", "a@x.com", "12", "C2"]]).2.1 = 400 ∧
    (bulk_import storeA ["name", "email", "phone", "city"]
      [["Q", "a@x.com", "12", "C2"]]).2.2.length =
      [["Q", "a@x.com", "12", "C2"]].length :=
  ⟨by decide,
    ((C10_bulk_status_codes storeA ["name", "email", "phone", "city"]
      [["Q", "a@x.com", "12", "C2"]]).2 (by decide)).1,
    ((C10_bulk_status_codes storeA ["name", "email", "phone", "city"]
      [["Q", "a@x.com", "12", "C2"]]).2 (by decide)).2⟩
